import Mathlib

/-!
Shallow embedding of the clusterctl cluster client
(`cmd/clusterctl/clusterdeployer/clusterclient/clusterclient.go`) and of the
ClusterTemplate admission webhook (`exp/api/v1alpha3`), together with proofs
that settle the frozen claims C1..C10 about this code.

Remote calls are modelled by passing the remote state (or the remote call's
outcome) as an explicit argument; a Go `nil`-pointer dereference or
out-of-range index (a runtime panic) is modelled as `Option.none`.
-/

namespace ClusterClient

/-- An owner reference: a back-link on a child object naming a parent's kind
and name (the only two fields the client's ownership filters consult). -/
structure OwnerReference where
  kind : String
  name : String
deriving DecidableEq, Repr

/-- Modelled from the spec: object metadata for the cluster-api resource
kinds (the typed `clusterv1` package is outside `src/`); name, namespace,
owner references, finalizers, and annotation entries are the fields the
client code reads or writes. -/
structure ObjectMeta where
  name : String
  ns : String
  ownerReferences : List OwnerReference
  finalizers : List String
  annots : List (String × String)
deriving DecidableEq, Repr

/-- Modelled from the spec: a cluster API endpoint (host, port). -/
structure APIEndpoint where
  host : String
  port : Int
deriving DecidableEq, Repr

/-- Modelled from the spec: `ClusterStatus` — endpoints plus an optional
provider status; absent until a controller populates it. -/
structure ClusterStatus where
  apiEndpoints : List APIEndpoint
  providerStatus : Option String
  errorReason : String
deriving DecidableEq, Repr

/-- The zero value `clusterv1.ClusterStatus{}` that
`reflect.DeepEqual` compares against. -/
def ClusterStatus.empty : ClusterStatus :=
  { apiEndpoints := [], providerStatus := none, errorReason := "" }

/-- Modelled from the spec: `MachineDeploymentStatus` — replica counters,
all zero until populated. -/
structure MachineDeploymentStatus where
  observedGeneration : Nat
  replicas : Nat
  readyReplicas : Nat
deriving DecidableEq, Repr

/-- The zero value `clusterv1.MachineDeploymentStatus{}`. -/
def MachineDeploymentStatus.empty : MachineDeploymentStatus :=
  { observedGeneration := 0, replicas := 0, readyReplicas := 0 }

/-- Modelled from the spec: `MachineSetStatus` — replica counters, all zero
until populated. -/
structure MachineSetStatus where
  replicas : Nat
  readyReplicas : Nat
deriving DecidableEq, Repr

/-- The zero value `clusterv1.MachineSetStatus{}`. -/
def MachineSetStatus.empty : MachineSetStatus :=
  { replicas := 0, readyReplicas := 0 }

/-- Modelled from the spec: `MachineStatus` — node reference plus an
optional provider status. -/
structure MachineStatus where
  nodeRef : Option String
  providerStatus : Option String
deriving DecidableEq, Repr

/-- The zero value `clusterv1.MachineStatus{}`. -/
def MachineStatus.empty : MachineStatus :=
  { nodeRef := none, providerStatus := none }

/-- Modelled from the spec: the machine spec marker distinguishing
control-plane machines ("which machine specifies the control plane
version"). -/
structure MachineSpec where
  controlPlaneVersion : Option String
deriving DecidableEq, Repr

/-- A Cluster object; `kind` is the TypeMeta kind consulted by the
ownership filters. -/
structure Cluster where
  kind : String
  meta : ObjectMeta
  status : ClusterStatus
deriving DecidableEq, Repr

/-- A MachineDeployment object. -/
structure MachineDeployment where
  meta : ObjectMeta
  status : MachineDeploymentStatus
deriving DecidableEq, Repr

/-- A MachineSet object. -/
structure MachineSet where
  meta : ObjectMeta
  status : MachineSetStatus
deriving DecidableEq, Repr

/-- A Machine object. -/
structure Machine where
  meta : ObjectMeta
  spec : MachineSpec
  status : MachineStatus
deriving DecidableEq, Repr

/-- Errors surfaced by the client: remote not-found, other remote failures,
and `errors.Wrapf`-style wrapping with call-site context. -/
inductive Err where
  | notFound (kind ns name : String)
  | remote (msg : String)
  | wrapped (context : String) (cause : Err)
deriving DecidableEq, Repr

/-! ### C1 — ownership filters (clusterclient.go lines 331-361, 417-443, 478-504)

The remote label-selector list has already been fetched; the filter loop over
`list.Items` is embedded below.  `GetMachineDeploymentsForCluster` (line 354)
appends `machineDeployments[idx]` — an index into the result slice being
built — so the embedding carries the accumulator and returns `none` when the
index is out of range (a Go runtime panic).  The MachineSet and Machine
variants append `&list.Items[idx]` instead. -/

/-- Inner loop of the MachineDeployment ownership filter: for each owner
reference of `md`, on a kind+name match append `machineDeployments[idx]`
(source line 354), which panics (`none`) when `idx` is out of range for the
accumulator built so far. -/
def mdOwnerLoop (cluster : Cluster) (idx : Nat) (md : MachineDeployment)
    (acc : List MachineDeployment) : Option (List MachineDeployment) :=
  md.meta.ownerReferences.foldl
    (fun acc? or =>
      acc?.bind fun a =>
        if or.kind == cluster.kind && or.name == cluster.meta.name then
          match a.get? idx with
          | some x => some (a ++ [x])
          | none => none
        else
          some a)
    (some acc)

/-- Outer loop of `GetMachineDeploymentsForCluster` over the fetched items,
tracking the range index. -/
def mdFilterLoop (cluster : Cluster) :
    Nat → List MachineDeployment → List MachineDeployment →
    Option (List MachineDeployment)
  | _, acc, [] => some acc
  | idx, acc, md :: rest =>
    match mdOwnerLoop cluster idx md acc with
    | none => none
    | some acc2 => mdFilterLoop cluster (idx + 1) acc2 rest

/-- The ownership-filter portion of `GetMachineDeploymentsForCluster`
(lines 350-358), applied to the already-fetched candidate list; `none`
models the runtime panic on the out-of-range index. -/
def GetMachineDeploymentsForCluster (cluster : Cluster)
    (items : List MachineDeployment) : Option (List MachineDeployment) :=
  mdFilterLoop cluster 0 [] items

/-- Inner loop of the MachineSet ownership filter (lines 434-441): on a
kind+name match append `&machineSetList.Items[idx]`, i.e. the item itself. -/
def msOwnerLoop (cluster : Cluster) (ms : MachineSet)
    (acc : List MachineSet) : List MachineSet :=
  ms.meta.ownerReferences.foldl
    (fun a or =>
      if or.kind == cluster.kind && or.name == cluster.meta.name then
        a ++ [ms]
      else
        a)
    acc

/-- The ownership-filter portion of `GetMachineSetsForCluster`
(lines 433-442). -/
def GetMachineSetsForCluster (cluster : Cluster) (items : List MachineSet) :
    List MachineSet :=
  items.foldl (fun acc ms => msOwnerLoop cluster ms acc) []

/-- Inner loop of the Machine ownership filter (lines 495-502): on a
kind+name match append `&machineslist.Items[idx]`, i.e. the item itself. -/
def machineOwnerLoop (cluster : Cluster) (m : Machine)
    (acc : List Machine) : List Machine :=
  m.meta.ownerReferences.foldl
    (fun a or =>
      if or.kind == cluster.kind && or.name == cluster.meta.name then
        a ++ [m]
      else
        a)
    acc

/-- The ownership-filter portion of `GetMachinesForCluster`
(lines 494-503). -/
def GetMachinesForCluster (cluster : Cluster) (items : List Machine) :
    List Machine :=
  items.foldl (fun acc m => machineOwnerLoop cluster m acc) []

/-- The subset membership the spec's ownership-filter contract describes:
the candidate carries an owner reference whose kind and name equal the
parent cluster's. -/
def mdOwnedByCluster (cluster : Cluster) (md : MachineDeployment) : Bool :=
  md.meta.ownerReferences.any
    (fun or => or.kind == cluster.kind && or.name == cluster.meta.name)

/-- A sample cluster used as the concrete parent in the C1 evidence. -/
def sampleCluster : Cluster :=
  { kind := "Cluster"
    meta := { name := "c1", ns := "ns1", ownerReferences := [],
              finalizers := [], annots := [] }
    status := ClusterStatus.empty }

/-- A sample MachineDeployment owned (by owner reference) by
`sampleCluster`. -/
def sampleOwnedMD : MachineDeployment :=
  { meta := { name := "md1", ns := "ns1",
              ownerReferences := [{ kind := "Cluster", name := "c1" }],
              finalizers := [], annots := [] }
    status := MachineDeploymentStatus.empty }

/-- C1: the claim fails on the code.  On a candidate list with one
MachineDeployment that is owned by the parent cluster — so the claimed
result is exactly that one-element subset — `GetMachineDeploymentsForCluster`
indexes the result slice being built (`machineDeployments[idx]`, source line
354) instead of the fetched items, an out-of-range access that panics
(modelled as `none`) rather than returning the subset. -/
theorem C1_md_filter_panics_on_matching_candidate :
    GetMachineDeploymentsForCluster sampleCluster [sampleOwnedMD] = none ∧
    mdOwnedByCluster sampleCluster sampleOwnedMD = true :=
  ⟨rfl, rfl⟩

/-! ### Remote state and the machine-readiness wait -/

/-- The remote object store's lists of the four kinds the client polls. -/
structure RemoteState where
  clusters : List Cluster
  machineDeployments : List MachineDeployment
  machineSets : List MachineSet
  machines : List Machine
deriving DecidableEq, Repr

/-- Look a machine up by namespace and name. -/
def findMachine (machines : List Machine) (ns name : String) : Option Machine :=
  machines.find? (fun m => m.meta.ns == ns && m.meta.name == name)

/-- One probe tick of `waitForMachineReady` (lines 1255-1290), called with
the Go pointer value `machine`.  A nil pointer (`none`) is dereferenced at
`machine.Name` before any remote call — a runtime panic, modelled as `none`.
With a machine present, the tick re-fetches the object by namespace/name
(a NotFound leaves the local copy unchanged, line 1278) and reports ready
when it has a node reference or at least one annotation entry (line 1285). -/
def waitForMachineReadyTick (st : RemoteState) (machine : Option Machine) :
    Option Bool :=
  match machine with
  | none => none
  | some m =>
    let cur := (findMachine st.machines m.meta.ns m.meta.name).getD m
    some (cur.status.nodeRef.isSome || !cur.meta.annots.isEmpty)

/-! ### C2, C3 — CreateMachines (lines 603-638) -/

/-- The observable actions of one `CreateMachines` worker goroutine: the
create call with the namespaced machine, and the readiness-wait call with
the Go pointer value it was handed (`none` = nil). -/
inductive WorkerStep where
  | createCall (m : Machine)
  | waitCall (arg : Option Machine)
deriving DecidableEq, Repr

/-- What one worker goroutine did: its steps, whether it panicked, and the
error (if any) it offered to the write-once latch. -/
structure WorkerTrace where
  steps : List WorkerStep
  panicked : Bool
  unitErr : Option Err
deriving DecidableEq, Repr

/-- The assignment `machine.Namespace = namespace` (line 622). -/
def withNs (m : Machine) (ns : String) : Machine :=
  { m with meta := { m.meta with ns := ns } }

/-- One worker goroutine of `CreateMachines` (lines 619-634): it declares
`createdMachine` without ever assigning it (line 621), sets the machine's
namespace, issues the create, and — on success — calls
`waitForMachineReady(c.clientSet, createdMachine)` (line 631), passing the
still-nil `createdMachine` rather than the machine it just created.
`createResult` is the remote store's verdict on the create call
(`none` = success). -/
def createMachinesWorker (st : RemoteState)
    (createResult : Machine → Option Err) (ns : String)
    (machine : Machine) : WorkerTrace :=
  let createdMachine : Option Machine := none
  let target := withNs machine ns
  match createResult target with
  | some e =>
    { steps := [WorkerStep.createCall target]
      panicked := false
      unitErr := some (Err.wrapped
        ("error creating a machine object in namespace " ++ ns) e) }
  | none =>
    match waitForMachineReadyTick st createdMachine with
    | none =>
      { steps := [WorkerStep.createCall target,
                  WorkerStep.waitCall createdMachine]
        panicked := true
        unitErr := none }
    | some ready =>
      { steps := [WorkerStep.createCall target,
                  WorkerStep.waitCall createdMachine]
        panicked := false
        unitErr := if ready then none
                   else some (Err.remote "timed out waiting for machine ready") }

/-- The outcome of `CreateMachines`: whether some worker panicked (which
crashes the process before the call can return), the first-error latch
`gerr`, and every worker's trace. -/
structure CreateMachinesOut where
  panicked : Bool
  gerr : Option Err
  traces : List WorkerTrace
deriving DecidableEq, Repr

/-- Embeds `CreateMachines` (lines 603-638): one worker goroutine per machine, a
join barrier (`wg.Wait`), and a write-once first-error latch
(`errOnce`/`gerr`).  Completion order is nondeterministic in Go; the latch
is modelled as the first error in spawn order.  A panic in any worker
goroutine crashes the whole process, in which case the call never returns
`gerr`. -/
def CreateMachines (st : RemoteState) (createResult : Machine → Option Err)
    (machines : List Machine) (ns : String) : CreateMachinesOut :=
  let traces := machines.map (createMachinesWorker st createResult ns)
  { panicked := traces.any (fun t => t.panicked)
    gerr := (traces.filterMap (fun t => t.unitErr)).head?
    traces := traces }

/-- A sample machine handed to `CreateMachines`. -/
def sampleMachine : Machine :=
  { meta := { name := "m1", ns := "", ownerReferences := [],
              finalizers := [], annots := [] }
    spec := { controlPlaneVersion := none }
    status := MachineStatus.empty }

/-- A second sample machine. -/
def sampleMachine2 : Machine :=
  { meta := { name := "m2", ns := "", ownerReferences := [],
              finalizers := [], annots := [] }
    spec := { controlPlaneVersion := none }
    status := MachineStatus.empty }

/-- A remote store with nothing in it. -/
def emptyRemote : RemoteState :=
  { clusters := [], machineDeployments := [], machineSets := [],
    machines := [] }

/-- A remote create verdict under which every create call succeeds. -/
def allCreatesSucceed : Machine → Option Err := fun _ => none

/-- A remote create verdict under which the machine named `m1` fails to
create and every other create succeeds. -/
def createFailsForM1 : Machine → Option Err := fun m =>
  if m.meta.name == "m1" then some (Err.remote "create failed") else none

/-- C2: the claim fails on the code.  For a machine whose create call
succeeds, the worker unit does set the namespace and issue the create, but
the readiness wait is invoked with the never-assigned nil `createdMachine`
(line 631) — not the machine that was created — and the wait dereferences
that nil pointer and panics. -/
theorem C2_wait_called_with_nil_not_created_machine :
    (createMachinesWorker emptyRemote allCreatesSucceed "ns1"
        sampleMachine).steps =
      [WorkerStep.createCall (withNs sampleMachine "ns1"),
       WorkerStep.waitCall none] ∧
    (createMachinesWorker emptyRemote allCreatesSucceed "ns1"
        sampleMachine).panicked = true :=
  ⟨rfl, rfl⟩

/-- C3: the claim fails on the code.  With two machines where `m1` fails to
create and `m2` succeeds, both creates are attempted (each trace starts with
its create call), but the worker that succeeded passes the nil
`createdMachine` to the readiness wait and panics, so the process crashes
and `CreateMachines` never returns the retained first error. -/
theorem C3_crashes_instead_of_returning_first_error :
    ((CreateMachines emptyRemote createFailsForM1
        [sampleMachine, sampleMachine2] "ns1").traces.map
      (fun t => t.steps.head?)) =
      [some (WorkerStep.createCall (withNs sampleMachine "ns1")),
       some (WorkerStep.createCall (withNs sampleMachine2 "ns1"))] ∧
    (CreateMachines emptyRemote createFailsForM1
        [sampleMachine, sampleMachine2] "ns1").panicked = true :=
  ⟨rfl, rfl⟩

/-! ### C4 — DeleteClusters with an empty namespace (lines 641-678) -/

/-- The Go map read `clustersToDelete[ns]`: an association list standing for
`map[string]*clusterv1.ClusterList`; a missing key yields the zero value, a
nil `*ClusterList`, modelled as `none`. -/
def lookupNsEntry (m : List (String × List Cluster)) (ns : String) :
    Option (List Cluster) :=
  (m.find? (fun p => p.1 == ns)).map (fun p => p.2)

/-- Write `clustersToDelete[ns].Items = items` for an entry that exists. -/
def setNsEntry (m : List (String × List Cluster)) (ns : String)
    (items : List Cluster) : List (String × List Cluster) :=
  m.map (fun p => if p.1 == ns then (p.1, items) else p)

/-- The per-namespace gather loop of `DeleteClusters` over the all-namespace
cluster list (lines 659-664): for each cluster whose namespace is unseen,
mark it seen and append the cluster to `clustersToDelete[ns].Items`
(line 662).  No entry is ever created in `clustersToDelete`, so that map
read yields a nil `*ClusterList` and the field write dereferences it —
a runtime panic, modelled as `none`. -/
def deleteClustersGather :
    List Cluster → List String → List (String × List Cluster) →
    Option (List String × List (String × List Cluster))
  | [], seen, toDelete => some (seen, toDelete)
  | c :: rest, seen, toDelete =>
    if seen.contains c.meta.ns then
      deleteClustersGather rest seen toDelete
    else
      match lookupNsEntry toDelete c.meta.ns with
      | none => none
      | some items =>
        deleteClustersGather rest (seen ++ [c.meta.ns])
          (setNsEntry toDelete c.meta.ns (items ++ [c]))

/-- Embeds `DeleteClusters` (lines 641-678) called with an empty namespace, up to
the point where it has listed every Cluster across all namespaces and
partitions them by distinct namespace; `none` models the panic in the
gather loop. -/
def DeleteClustersAllNamespaces (allClusters : List Cluster) :
    Option (List String × List (String × List Cluster)) :=
  deleteClustersGather allClusters [] []

/-- One probe tick of `waitForClusterDelete` (lines 1046-1067): done when
the Cluster list is empty.  The list call carries no namespace restriction
even though a namespace argument is taken. -/
def waitForClusterDeleteTick (st : RemoteState) : Bool :=
  st.clusters.isEmpty

/-- A cluster living in namespace `ns1`. -/
def clusterInNs1 : Cluster :=
  { kind := "Cluster"
    meta := { name := "c2", ns := "ns1", ownerReferences := [],
              finalizers := [], annots := [] }
    status := ClusterStatus.empty }

/-- C4: the claim fails on the code.  With a single cluster listed in
namespace `ns1`, the partition step of `DeleteClusters("")` appends through
the never-populated map entry `clustersToDelete["ns1"]` (a nil
`*ClusterList`, line 662) and panics, so no collection delete and no
emptiness poll are ever reached. -/
theorem C4_partition_panics_on_missing_map_entry :
    DeleteClustersAllNamespaces [clusterInNs1] = none :=
  rfl

/-! ### C5 — DeleteMachines post-delete wait (lines 802-839) -/

/-- One probe tick of `waitForMachinesDelete` (lines 1134-1153): done when
the Machines list is empty (the list call carries no namespace
restriction). -/
def waitForMachinesDeleteTick (st : RemoteState) : Bool :=
  st.machines.isEmpty

/-- One probe tick of `waitForMachineSetsDelete` (lines 1113-1132): done
when the MachineSets list is empty. -/
def waitForMachineSetsDeleteTick (st : RemoteState) : Bool :=
  st.machineSets.isEmpty

/-- The post-delete wait `DeleteMachines` performs for each processed
namespace: line 832 calls `c.waitForMachineSetsDelete(ns)` — the MachineSet
wait — not `waitForMachinesDelete`. -/
def deleteMachinesPostDeleteTick (st : RemoteState) : Bool :=
  waitForMachineSetsDeleteTick st

/-- A remote state in which one Machine is still present but no MachineSets
remain. -/
def leftoverMachineState : RemoteState :=
  { clusters := [], machineDeployments := [], machineSets := [],
    machines := [sampleMachine] }

/-- C5: the claim fails on the code.  With a Machine still present and no
MachineSets left, the wait that `DeleteMachines` actually polls (the
MachineSet emptiness probe, line 832) reports done, although the Machines
list — the kind being deleted — is not empty. -/
theorem C5_delete_machines_waits_on_wrong_kind :
    deleteMachinesPostDeleteTick leftoverMachineState = true ∧
    waitForMachinesDeleteTick leftoverMachineState = false :=
  ⟨rfl, rfl⟩

/-! ### C6 — ForceDeleteMachine (lines 841-871) -/

/-- Remote store operations issued by `ForceDeleteMachine`, recorded in
order. -/
inductive StoreOp where
  | getOp (ns name : String)
  | updateOp (m : Machine)
  | deleteOp (m : Machine) (foreground : Bool)
deriving DecidableEq, Repr

/-- Result of a `ForceDeleteMachine` call: the operations issued, the
resulting remote machine list, and the returned error, if any. -/
structure ForceDeleteOut where
  ops : List StoreOp
  machines : List Machine
  err : Option Err
deriving DecidableEq, Repr

/-- The call `machine.SetFinalizers` with an empty list (line 863). -/
def clearFinalizers (m : Machine) : Machine :=
  { m with meta := { m.meta with finalizers := [] } }

/-- Remove a machine from the store by namespace and name. -/
def removeMachine (machines : List Machine) (ns name : String) :
    List Machine :=
  machines.filter (fun m => !(m.meta.ns == ns && m.meta.name == name))

/-- Replace the stored copy of a machine with an updated one. -/
def updateMachine (machines : List Machine) (upd : Machine) : List Machine :=
  machines.map (fun m =>
    if m.meta.ns == upd.meta.ns && m.meta.name == upd.meta.name then upd
    else m)

/-- Embeds `ForceDeleteMachine` (lines 841-871): get the machine — a get failure on
an absent machine is wrapped with `"error getting Machine ns/name"` and
returned before any mutation; otherwise clear its finalizer set, update it
remotely, then delete it with foreground propagation.  Update and delete on
a present machine are modelled as succeeding, with their effect on the
remote list returned. -/
def ForceDeleteMachine (machines : List Machine) (ns name : String) :
    ForceDeleteOut :=
  match findMachine machines ns name with
  | none =>
    { ops := [StoreOp.getOp ns name]
      machines := machines
      err := some (Err.wrapped ("error getting Machine " ++ ns ++ "/" ++ name)
        (Err.notFound "Machine" ns name)) }
  | some machine =>
    let cleared := clearFinalizers machine
    { ops := [StoreOp.getOp ns name, StoreOp.updateOp cleared,
              StoreOp.deleteOp cleared true]
      machines := removeMachine (updateMachine machines cleared) ns name
      err := none }

/-- C6: on a machine present in the store with a non-empty finalizer set,
`ForceDeleteMachine` issues an update carrying an empty finalizer set
followed by a foreground-propagation delete, in that order; on an absent
machine it returns a wrapped NotFound-derived error, issues neither update
nor delete, and leaves the remote state unchanged. -/
theorem C6_force_delete_machine_correct (machines : List Machine)
    (ns name : String) :
    (∀ m, findMachine machines ns name = some m →
      m.meta.finalizers ≠ [] →
      (ForceDeleteMachine machines ns name).ops =
        [StoreOp.getOp ns name,
         StoreOp.updateOp (clearFinalizers m),
         StoreOp.deleteOp (clearFinalizers m) true] ∧
      (clearFinalizers m).meta.finalizers = []) ∧
    (findMachine machines ns name = none →
      (ForceDeleteMachine machines ns name).err =
        some (Err.wrapped ("error getting Machine " ++ ns ++ "/" ++ name)
          (Err.notFound "Machine" ns name)) ∧
      (ForceDeleteMachine machines ns name).ops = [StoreOp.getOp ns name] ∧
      (ForceDeleteMachine machines ns name).machines = machines) := by
  constructor
  · intro m hm hfin
    simp [ForceDeleteMachine, hm, clearFinalizers]
  · intro h
    simp [ForceDeleteMachine, h]

/-- A machine guarded by a non-empty finalizer set. -/
def finalizedMachine : Machine :=
  { meta := { name := "m3", ns := "ns1", ownerReferences := [],
              finalizers := ["cluster.k8s.io"], annots := [] }
    spec := { controlPlaneVersion := none }
    status := MachineStatus.empty }

/-- Witness for C6 at a concrete store: one finalized machine present, and
the absent case against an empty store. -/
theorem C6_force_delete_machine_correct_witness :
    (ForceDeleteMachine [finalizedMachine] "ns1" "m3").ops =
      [StoreOp.getOp "ns1" "m3",
       StoreOp.updateOp (clearFinalizers finalizedMachine),
       StoreOp.deleteOp (clearFinalizers finalizedMachine) true] ∧
    (ForceDeleteMachine [] "ns1" "m3").machines = ([] : List Machine) := by
  constructor
  · exact ((C6_force_delete_machine_correct [finalizedMachine] "ns1" "m3").1
      finalizedMachine rfl (by decide)).1
  · exact ((C6_force_delete_machine_correct [] "ns1" "m3").2 rfl).2.2

/-! ### C7 — WaitForResourceStatuses (lines 975-1044) -/

/-- One probe tick of `WaitForResourceStatuses` (lines 985-1043): scan the
four all-namespace lists in order; a cluster whose status equals the zero
value or whose provider status is nil, a machine deployment or machine set
whose status equals the zero value, or a machine whose status equals the
zero value or whose provider status is nil each make the tick report
not-ready; the tick reports ready only after every object passed. -/
def waitForResourceStatusesTick (st : RemoteState) : Bool :=
  st.clusters.all (fun cluster =>
    !(cluster.status == ClusterStatus.empty) &&
      cluster.status.providerStatus.isSome) &&
  st.machineDeployments.all (fun md =>
    !(md.status == MachineDeploymentStatus.empty)) &&
  st.machineSets.all (fun ms =>
    !(ms.status == MachineSetStatus.empty)) &&
  st.machines.all (fun m =>
    !(m.status == MachineStatus.empty) && m.status.providerStatus.isSome)

/-- C7: one tick of the `WaitForResourceStatuses` probe reports ready if and
only if every listed Cluster has a non-empty status and a set
provider-status, every listed MachineDeployment and MachineSet has a
non-empty status, and every listed Machine has a non-empty status and a set
provider-status — so a single object of any kind with an empty status makes
the tick report not-ready. -/
theorem C7_resource_statuses_tick_iff (st : RemoteState) :
    waitForResourceStatusesTick st = true ↔
      ((∀ c ∈ st.clusters,
          c.status ≠ ClusterStatus.empty ∧ c.status.providerStatus ≠ none) ∧
       (∀ md ∈ st.machineDeployments,
          md.status ≠ MachineDeploymentStatus.empty) ∧
       (∀ ms ∈ st.machineSets, ms.status ≠ MachineSetStatus.empty) ∧
       (∀ m ∈ st.machines,
          m.status ≠ MachineStatus.empty ∧ m.status.providerStatus ≠ none)) := by
  simp only [waitForResourceStatusesTick, Bool.and_eq_true,
    List.all_eq_true, Bool.not_eq_true', beq_eq_false_iff_ne, ne_eq,
    Option.isSome_iff_ne_none]
  tauto

/-- A cluster whose status is populated. -/
def readyCluster : Cluster :=
  { kind := "Cluster"
    meta := { name := "c3", ns := "ns1", ownerReferences := [],
              finalizers := [], annots := [] }
    status := { apiEndpoints := [{ host := "10.0.0.1", port := 443 }],
                providerStatus := some "provisioned", errorReason := "" } }

/-- A machine deployment whose status is populated. -/
def readyMD : MachineDeployment :=
  { meta := { name := "md2", ns := "ns1", ownerReferences := [],
              finalizers := [], annots := [] }
    status := { observedGeneration := 1, replicas := 1, readyReplicas := 1 } }

/-- A machine set whose status is populated. -/
def readyMS : MachineSet :=
  { meta := { name := "ms2", ns := "ns1", ownerReferences := [],
              finalizers := [], annots := [] }
    status := { replicas := 1, readyReplicas := 1 } }

/-- A machine whose status is populated. -/
def readyMachine : Machine :=
  { meta := { name := "m4", ns := "ns1", ownerReferences := [],
              finalizers := [], annots := [] }
    spec := { controlPlaneVersion := none }
    status := { nodeRef := some "node-1", providerStatus := some "ok" } }

/-- A remote state in which every listed object has a populated status. -/
def readyRemote : RemoteState :=
  { clusters := [readyCluster], machineDeployments := [readyMD],
    machineSets := [readyMS], machines := [readyMachine] }

/-- Witness for C7: with every listed object's status populated, the tick
reports ready. -/
theorem C7_resource_statuses_tick_iff_witness :
    waitForResourceStatusesTick readyRemote = true :=
  (C7_resource_statuses_tick_iff readyRemote).mpr (by decide)

/-! ### C8 — ClusterTemplate webhook validation (src/unnamed/part_000, lines 51-82) -/

/-- The check `APIEndpoint.IsZero`: host empty and port zero. -/
def APIEndpoint.isZero (e : APIEndpoint) : Bool :=
  e.host == "" && e.port == 0

/-- Modelled from the spec: the embedded cluster-spec fields the
ClusterTemplate webhook validates — the control-plane endpoint and the
paused flag (the `clusterv1.ClusterSpec` type is outside `src/`). -/
structure ClusterSpec where
  controlPlaneEndpoint : APIEndpoint
  paused : Bool
deriving DecidableEq, Repr

/-- The cloneable content of a cluster template
(`exp/api/v1alpha3/clustertemplate_types.go`). -/
structure ClusterTemplateResource where
  spec : ClusterSpec
deriving DecidableEq, Repr

/-- The spec of a ClusterTemplate. -/
structure ClusterTemplateSpec where
  template : ClusterTemplateResource
deriving DecidableEq, Repr

/-- A ClusterTemplate object. -/
structure ClusterTemplate where
  name : String
  spec : ClusterTemplateSpec
deriving DecidableEq, Repr

/-- A structured field error as produced by `field.Invalid`: the field path,
the rendered offending value, and the detail message. -/
structure FieldError where
  path : List String
  badValue : String
  detail : String
deriving DecidableEq, Repr

/-- Embeds `validate` of the ClusterTemplate webhook (src/unnamed/part_000 lines
51-82): a non-zero control-plane endpoint appends a field error at
`spec.template.spec.controlPlaneEndpoint`; a true paused flag appends a
field error whose path is likewise
`spec.template.spec.controlPlaneEndpoint` (line 70) carrying the paused
value.  The collected list is returned (empty = validation passes). -/
def clusterTemplateValidate (c : ClusterTemplate) : List FieldError :=
  let templateSpecPath := ["spec", "template", "spec"]
  let errs1 : List FieldError :=
    if !c.spec.template.spec.controlPlaneEndpoint.isZero then
      [{ path := templateSpecPath ++ ["controlPlaneEndpoint"]
         badValue := c.spec.template.spec.controlPlaneEndpoint.host ++ ":" ++
           toString c.spec.template.spec.controlPlaneEndpoint.port
         detail := "may not be populated for cluster templates" }]
    else []
  if c.spec.template.spec.paused then
    errs1 ++
      [{ path := templateSpecPath ++ ["controlPlaneEndpoint"]
         badValue := "true"
         detail := "may not be populated for cluster templates" }]
  else errs1

/-- A template whose embedded spec sets paused=true and leaves the
control-plane endpoint zero. -/
def pausedTemplate : ClusterTemplate :=
  { name := "tmpl"
    spec := { template := { spec :=
      { controlPlaneEndpoint := { host := "", port := 0 }
        paused := true } } } }

/-- C8: the claim fails on the code.  A template that only sets paused=true
does fail validation with exactly one field error, but that error's path is
`spec.template.spec.controlPlaneEndpoint` — the paused violation does not
name the violated field. -/
theorem C8_paused_error_names_control_plane_endpoint :
    clusterTemplateValidate pausedTemplate =
      [{ path := ["spec", "template", "spec", "controlPlaneEndpoint"]
         badValue := "true"
         detail := "may not be populated for cluster templates" }] :=
  rfl

/-! ### C9 — ExtractControlPlaneMachines (lines 1335-1349) -/

/-- Modelled from the spec: `util.IsControlPlaneMachine` (outside `src/`) —
a control-plane machine is distinguished by the spec marker, i.e. it
specifies the control-plane version. -/
def IsControlPlaneMachine (m : Machine) : Bool :=
  m.spec.controlPlaneVersion.isSome

/-- Embeds `ExtractControlPlaneMachines` (lines 1335-1349): split the incoming
machines, in input order, into those that satisfy the control-plane marker
and the rest; error when fewer than one control-plane machine was found. -/
def ExtractControlPlaneMachines (machines : List Machine) :
    Except Err (List Machine × List Machine) :=
  let controlPlaneMachines :=
    machines.filter (fun m => IsControlPlaneMachine m)
  let nodes := machines.filter (fun m => !IsControlPlaneMachine m)
  if controlPlaneMachines.length < 1 then
    Except.error
      (Err.remote "expected one or more control plane machines, got: 0")
  else
    Except.ok (controlPlaneMachines, nodes)

/-- C9: `ExtractControlPlaneMachines` errors exactly when no input machine
carries the control-plane marker; otherwise the two returned lists are the
order-preserving partition of the input — control-plane machines first
component, all others second, every input machine in exactly one of them. -/
theorem C9_extract_control_plane_machines (machines : List Machine) :
    ((∃ e, ExtractControlPlaneMachines machines = Except.error e) ↔
      ∀ m ∈ machines, IsControlPlaneMachine m = false) ∧
    (∀ cpm nodes,
      ExtractControlPlaneMachines machines = Except.ok (cpm, nodes) →
      cpm = machines.filter (fun m => IsControlPlaneMachine m) ∧
      nodes = machines.filter (fun m => !IsControlPlaneMachine m) ∧
      ∀ m ∈ machines,
        (m ∈ cpm ∧ m ∉ nodes) ∨ (m ∈ nodes ∧ m ∉ cpm)) := by
  constructor
  · constructor
    · rintro ⟨e, he⟩ m hm
      by_contra hcp
      simp only [ExtractControlPlaneMachines] at he
      split at he
      · rename_i hlen
        have : m ∈ machines.filter (fun m => IsControlPlaneMachine m) :=
          List.mem_filter.mpr ⟨hm, by simpa using hcp⟩
        have h0 : machines.filter (fun m => IsControlPlaneMachine m) = [] :=
          List.length_eq_zero.mp (Nat.lt_one_iff.mp hlen)
        simp [h0] at this
      · exact Except.noConfusion he
    · intro hnone
      refine ⟨Err.remote "expected one or more control plane machines, got: 0", ?_⟩
      have h0 : machines.filter (fun m => IsControlPlaneMachine m) = [] := by
        rw [List.filter_eq_nil_iff]
        intro m hm
        simp [hnone m hm]
      simp [ExtractControlPlaneMachines, h0]
  · intro cpm nodes h
    simp only [ExtractControlPlaneMachines] at h
    split at h
    · exact Except.noConfusion h
    · obtain ⟨h1, h2⟩ := Prod.mk.injEq .. ▸ (Except.ok.injEq .. ▸ h)
      refine ⟨h1.symm, h2.symm, ?_⟩
      intro m hm
      by_cases hcp : IsControlPlaneMachine m
      · left
        constructor
        · rw [← h1]; exact List.mem_filter.mpr ⟨hm, by simpa using hcp⟩
        · rw [← h2]
          intro hmem
          have := (List.mem_filter.mp hmem).2
          simp [hcp] at this
      · right
        constructor
        · rw [← h2]
          exact List.mem_filter.mpr ⟨hm, by simpa using hcp⟩
        · rw [← h1]
          intro hmem
          have := (List.mem_filter.mp hmem).2
          simp [hcp] at this

/-- A machine carrying the control-plane marker. -/
def cpMachine : Machine :=
  { meta := { name := "cp1", ns := "ns1", ownerReferences := [],
              finalizers := [], annots := [] }
    spec := { controlPlaneVersion := some "v1.13.0" }
    status := MachineStatus.empty }

/-- Witness for C9: a two-machine input with one control-plane machine
splits into the two singleton filters. -/
theorem C9_extract_control_plane_machines_witness :
    [cpMachine] =
      List.filter (fun m => IsControlPlaneMachine m)
        [cpMachine, sampleMachine] ∧
    [sampleMachine] =
      List.filter (fun m => !IsControlPlaneMachine m)
        [cpMachine, sampleMachine] := by
  have h := (C9_extract_control_plane_machines [cpMachine, sampleMachine]).2
    [cpMachine] [sampleMachine] rfl
  exact ⟨h.1, h.2.1⟩

/-! ### C10 — GetCluster (lines 238-251) -/

/-- The scan in `GetCluster` (lines 244-249): the first listed cluster whose
name matches, if any. -/
def findClusterByName (clusters : List Cluster) (name : String) :
    Option Cluster :=
  clusters.find? (fun nc => nc.meta.name == name)

/-- Embeds `GetCluster` (lines 238-251): list the clusters in the namespace (the
outcome of that remote list is the `listing` argument); a list error is
returned as-is; otherwise the first cluster with the given name is
returned — and when none matches, a nil cluster together with a nil error. -/
def GetCluster (listing : Except Err (List Cluster)) (name : String) :
    Except Err (Option Cluster) :=
  match listing with
  | Except.error e => Except.error e
  | Except.ok clustersInNamespace =>
    Except.ok (findClusterByName clustersInNamespace name)

/-- C10: when the listing succeeds but contains no cluster with the given
name, `GetCluster` returns a nil cluster together with a nil error. -/
theorem C10_get_cluster_absent_is_nil_nil (l : List Cluster) (name : String)
    (h : ∀ c ∈ l, c.meta.name ≠ name) :
    GetCluster (Except.ok l) name = Except.ok none := by
  simp only [GetCluster, findClusterByName, Except.ok.injEq]
  rw [List.find?_eq_none]
  intro c hc
  simpa using h c hc

/-- Witness for C10 at a concrete listing that lacks the requested name. -/
theorem C10_get_cluster_absent_is_nil_nil_witness :
    GetCluster (Except.ok [sampleCluster]) "absent" = Except.ok none :=
  C10_get_cluster_absent_is_nil_nil [sampleCluster] "absent" (by decide)

end ClusterClient
